import Mathlib

/-!
Shallow embedding of the Zentao plugin's task-context construction
(`backend/plugins/zentao/impl/impl.go`): `PrepareTaskData`, `getZentaoHomePage`,
`Close` and the `SubTaskMetas` stage registry.

External collaborators (option decoding, connection lookup, the generic API
client constructor, the DAL, the process-wide config reader, the gorm opener
and `net/url.Parse`) are passed in as explicit parameters, mirroring the Go
function's calls into packages outside this file.
-/

namespace Zentao

/-- Result of Go's `net/url.Parse`: the three components `getZentaoHomePage`
reads (`Scheme`, `Host`, `Path`). -/
structure URL where
  scheme : String
  host : String
  path : String
deriving DecidableEq

/-- The error sites of `PrepareTaskData` / `getZentaoHomePage` / `Close`,
one constructor per `return nil, err` site in the Go source.
`scopeConfigBadInput` is the one wrapped with `errors.BadInput`. -/
inductive Err where
  | decodeFailed
  | connectionLoadFailed
  | apiClientFailed
  | scopeConfigBadInput
  | gormConnectFailed
  | emptyEndpoint
  | endpointParseFailed
  | getDataFailed
deriving DecidableEq

/-- `models.ZentaoConnection`: the fields `PrepareTaskData` reads. -/
structure ZentaoConnection where
  endpoint : String
  dbUrl : String
  dbLoggingLevel : String
  dbIdleConns : Int
  dbMaxConns : Int
deriving DecidableEq

/-- `models.ZentaoScopeConfig` (opaque here: only its identity matters). -/
structure ZentaoScopeConfig where
  id : Nat
deriving DecidableEq

/-- `tasks.ZentaoOptions`: the fields `PrepareTaskData` reads
(`ConnectionId`, `ScopeConfigId`, `ScopeConfig`). -/
structure ZentaoOptions where
  connectionId : Nat
  scopeConfigId : Nat
  scopeConfig : Option ZentaoScopeConfig
deriving DecidableEq

/-- `helper.ApiAsyncClient`: only `GetEndpoint` and `Release` are used. -/
structure ApiAsyncClient where
  endpoint : String
deriving DecidableEq

def ApiAsyncClient.GetEndpoint (c : ApiAsyncClient) : String := c.endpoint

/-- Handle produced by `dalgorm.NewDalgorm(runner.NewGormDb(...))`. -/
structure RemoteDbHandle where
  dbUrl : String
deriving DecidableEq

/-- `tasks.NewAccountCache(taskCtx.GetDal(), op.ConnectionId)`. -/
structure AccountCache where
  connectionId : Nat
deriving DecidableEq

/-- `tasks.ZentaoTaskData`: the fields `PrepareTaskData` assigns.
`homePageURL` starts as the Go zero value `""` and is set on success. -/
structure ZentaoTaskData where
  options : ZentaoOptions
  apiClient : Option ApiAsyncClient
  stories : List Int
  tasks : List Int
  bugs : List Int
  accountCache : AccountCache
  remoteDb : Option RemoteDbHandle
  homePageURL : String
deriving DecidableEq

/-- `taskCtx.SyncPolicy()`: the one field read. -/
structure SyncPolicy where
  skipCollectors : Bool
deriving DecidableEq

/-- A storage error from `taskCtx.GetDal().First`, tagged with what
`IsErrorNotFound` reports on it. -/
structure DalError where
  isNotFound : Bool
deriving DecidableEq

/-- The values `PrepareTaskData` stores into the fresh `viper` instance
before calling `runner.NewGormDb` (source keys `DB_URL`, `DB_LOGGING_LEVEL`,
`DB_IDLE_CONNS`, and — as spelled in the source — `DbMaxConns`). -/
structure ViperSettings where
  dbUrl : String
  dbLoggingLevel : String
  dbIdleConns : Int
  dbMaxConns : Int
deriving DecidableEq

/-- Outcomes of the calls `PrepareTaskData` makes into packages outside
`impl.go`, passed in explicitly. -/
structure Externals where
  decodeResult : Except Unit ZentaoOptions
  connResult : Except Unit ZentaoConnection
  apiClientResult : Except Unit ApiAsyncClient
  scopeConfigResult : Except DalError ZentaoScopeConfig
  cfgDbLoggingLevel : String
  cfgDbIdleConns : Int
  cfgDbMaxConns : Int
  newGormDb : ViperSettings → Except Unit RemoteDbHandle
  urlParse : String → Except Unit URL

deriving instance DecidableEq for Except

/-- Go `strings.Cut(s, sep)` on character lists: `some (before, after)` at the
first occurrence of `sep`, `none` when `sep` does not occur. -/
def cutAux (sep : List Char) : List Char → Option (List Char × List Char)
  | [] => if sep <+: ([] : List Char) then some ([], []) else none
  | c :: rest =>
    if sep <+: (c :: rest) then some ([], (c :: rest).drop sep.length)
    else (cutAux sep rest).map (fun p => (c :: p.1, p.2))

/-- Go `strings.Cut(s, sep) = (before, after, found)`. -/
def stringsCut (s sep : String) : String × String × Bool :=
  match cutAux sep.toList s.toList with
  | some (pre, post) => (String.mk pre, String.mk post, true)
  | none => (s, "", false)

/-- `getZentaoHomePage` (impl.go lines 257-271): reject an empty endpoint,
parse it, and rebuild `scheme://host` plus the part of the path before the
first occurrence of `"/api.php/v1"`. -/
def getZentaoHomePage (urlParse : String → Except Unit URL) (endpoint : String) :
    Except Err String :=
  if endpoint = "" then .error .emptyEndpoint
  else
    match urlParse endpoint with
    | .error _ => .error .endpointParseFailed
    | .ok endpointURL =>
      .ok (endpointURL.scheme ++ "://" ++ endpointURL.host ++
        (stringsCut endpointURL.path "/api.php/v1").1)

/-- impl.go lines 189-197: when collectors are not skipped, construct the API
client; a construction failure aborts `PrepareTaskData`. -/
def acquireApiClient (skip : Bool) (apiClientResult : Except Unit ApiAsyncClient) :
    Except Err (Option ApiAsyncClient) :=
  if skip then .ok none
  else
    match apiClientResult with
    | .error _ => .error .apiClientFailed
    | .ok c => .ok (some c)

/-- impl.go lines 199-204: when the options carry a scope-config id but no
embedded value, load it; only a load failure for which `IsErrorNotFound`
holds is returned (as `BadInput`) — any other load failure is ignored and the
options keep a nil scope config. -/
def loadScopeConfig (scopeConfigResult : Except DalError ZentaoScopeConfig)
    (op : ZentaoOptions) : Except Err ZentaoOptions :=
  if op.scopeConfig = none ∧ op.scopeConfigId ≠ 0 then
    match scopeConfigResult with
    | .ok cfg => .ok { op with scopeConfig := some cfg }
    | .error e => if e.isNotFound then .error .scopeConfigBadInput else .ok op
  else .ok op

/-- impl.go lines 217-233: the connection's mirror-database settings with each
unset field (`""` / `0`) replaced by the process-wide default, as stored into
the `viper` instance handed to `runner.NewGormDb`. -/
def mirrorDbSettings (connection : ZentaoConnection) (cfgLevel : String)
    (cfgIdle cfgMax : Int) : ViperSettings :=
  { dbUrl := connection.dbUrl
    dbLoggingLevel :=
      if connection.dbLoggingLevel = "" then cfgLevel else connection.dbLoggingLevel
    dbIdleConns :=
      if connection.dbIdleConns = 0 then cfgIdle else connection.dbIdleConns
    dbMaxConns :=
      if connection.dbMaxConns = 0 then cfgMax else connection.dbMaxConns }

/-- impl.go lines 215-241: when collectors are not skipped and a mirror
database URL is set, open the pooled connection with the defaulted settings;
a connect failure aborts `PrepareTaskData`. -/
def openMirrorDb (skip : Bool) (connection : ZentaoConnection) (cfgLevel : String)
    (cfgIdle cfgMax : Int) (newGormDb : ViperSettings → Except Unit RemoteDbHandle) :
    Except Err (Option RemoteDbHandle) :=
  if skip = false ∧ connection.dbUrl ≠ "" then
    match newGormDb (mirrorDbSettings connection cfgLevel cfgIdle cfgMax) with
    | .error _ => .error .gormConnectFailed
    | .ok rgorm => .ok (some rgorm)
  else .ok none

/-- The `tasks.ZentaoTaskData` literal built at impl.go lines 206-213 (with
`RemoteDb` and `HomePageURL` as later assigned). -/
def mkTaskData (op2 : ZentaoOptions) (apiClient : Option ApiAsyncClient)
    (remoteDb : Option RemoteDbHandle) (hp : String) : ZentaoTaskData :=
  { options := op2, apiClient := apiClient, stories := [], tasks := [], bugs := [],
    accountCache := { connectionId := op2.connectionId }, remoteDb := remoteDb,
    homePageURL := hp }

/-- `PrepareTaskData` (impl.go lines 173-255). The Go (data, error) return
pair is modelled as `Option ZentaoTaskData × Option Err`;
note the home-page failure path returns the partially built data *and* the
error (`return data, errors.Convert(err)`). -/
def PrepareTaskData (ext : Externals) (syncPolicy : SyncPolicy) :
    Option ZentaoTaskData × Option Err :=
  match ext.decodeResult with
  | .error _ => (none, some .decodeFailed)
  | .ok op =>
    match ext.connResult with
    | .error _ => (none, some .connectionLoadFailed)
    | .ok connection =>
      match acquireApiClient syncPolicy.skipCollectors ext.apiClientResult with
      | .error e => (none, some e)
      | .ok apiClient =>
        match loadScopeConfig ext.scopeConfigResult op with
        | .error e => (none, some e)
        | .ok op2 =>
          let data : ZentaoTaskData :=
            { options := op2
              apiClient := apiClient
              stories := []
              tasks := []
              bugs := []
              accountCache := { connectionId := op2.connectionId }
              remoteDb := none
              homePageURL := "" }
          match openMirrorDb syncPolicy.skipCollectors connection
              ext.cfgDbLoggingLevel ext.cfgDbIdleConns ext.cfgDbMaxConns
              ext.newGormDb with
          | .error e => (none, some e)
          | .ok remoteDb =>
            let data2 := { data with remoteDb := remoteDb }
            let endpoint :=
              match data2.apiClient with
              | some c => c.GetEndpoint
              | none => connection.endpoint
            match getZentaoHomePage ext.urlParse endpoint with
            | .error e => (some data2, some e)
            | .ok homepage => (some { data2 with homePageURL := homepage }, none)

/-- What `Close` (impl.go lines 345-354) releases. -/
structure CloseEffect where
  apiClientReleased : Bool
  remoteDbReleased : Bool
deriving DecidableEq

/-- `Close`: errors when `GetData` does not carry a `*tasks.ZentaoTaskData`;
otherwise releases the API client when one is present. The body contains no
statement touching `RemoteDb`, so `remoteDbReleased` is always `false`. -/
def Close (getData : Option ZentaoTaskData) : Except Err CloseEffect :=
  match getData with
  | none => .error .getDataFailed
  | some data =>
    .ok { apiClientReleased := data.apiClient.isSome, remoteDbReleased := false }

/-- The four subtask kinds appearing in the registry. -/
inductive SubTaskKind where
  | collect
  | extract
  | convert
  | dbget
deriving DecidableEq

/-- The entity families named by the `tasks.*Meta` identifiers. -/
inductive EntityFamily where
  | project
  | account
  | department
  | executionSummary
  | executionSummaryDev
  | execution
  | task
  | taskCommits
  | taskRepoCommits
  | story
  | executionStory
  | bug
  | storyCommits
  | storyRepoCommits
  | bugCommits
  | bugRepoCommits
  | changelog
  | taskWorklogs
deriving DecidableEq

/-- One entry of the stage registry, identified by its kind and entity
family (together these spell the Go identifier, e.g. `ConvertProjectMeta`). -/
structure SubTaskMeta where
  kind : SubTaskKind
  family : EntityFamily
deriving DecidableEq

/-- `SubTaskMetas` (impl.go lines 112-171), in source order. -/
def SubTaskMetas : List SubTaskMeta :=
  [ ⟨.convert, .project⟩,
    ⟨.collect, .account⟩,
    ⟨.extract, .account⟩,
    ⟨.convert, .account⟩,
    ⟨.collect, .department⟩,
    ⟨.extract, .department⟩,
    ⟨.collect, .executionSummary⟩,
    ⟨.extract, .executionSummary⟩,
    ⟨.collect, .executionSummaryDev⟩,
    ⟨.extract, .executionSummaryDev⟩,
    ⟨.collect, .execution⟩,
    ⟨.extract, .execution⟩,
    ⟨.convert, .execution⟩,
    ⟨.collect, .task⟩,
    ⟨.extract, .task⟩,
    ⟨.convert, .task⟩,
    ⟨.collect, .taskCommits⟩,
    ⟨.extract, .taskCommits⟩,
    ⟨.dbget, .taskRepoCommits⟩,
    ⟨.convert, .taskRepoCommits⟩,
    ⟨.collect, .story⟩,
    ⟨.extract, .story⟩,
    ⟨.convert, .story⟩,
    ⟨.convert, .executionStory⟩,
    ⟨.collect, .bug⟩,
    ⟨.extract, .bug⟩,
    ⟨.convert, .bug⟩,
    ⟨.collect, .storyCommits⟩,
    ⟨.extract, .storyCommits⟩,
    ⟨.dbget, .storyRepoCommits⟩,
    ⟨.convert, .storyRepoCommits⟩,
    ⟨.collect, .bugCommits⟩,
    ⟨.extract, .bugCommits⟩,
    ⟨.dbget, .bugRepoCommits⟩,
    ⟨.convert, .bugRepoCommits⟩,
    ⟨.dbget, .changelog⟩,
    ⟨.convert, .changelog⟩,
    ⟨.collect, .taskWorklogs⟩,
    ⟨.extract, .taskWorklogs⟩,
    ⟨.convert, .taskWorklogs⟩ ]

/-- The ordering property claimed for the stage registry: Convert-Project is
the first element, and every Account Collect/Extract unit precedes every unit
of any other entity family. -/
def claimedStageOrder : Prop :=
  SubTaskMetas.head? = some ⟨.convert, .project⟩ ∧
  ∀ i j : Fin SubTaskMetas.length,
    (SubTaskMetas.get i).family = .account →
    ((SubTaskMetas.get i).kind = .collect ∨ (SubTaskMetas.get i).kind = .extract) →
    (SubTaskMetas.get j).family ≠ .account →
    (i : Nat) < (j : Nat)

def opC1 : ZentaoOptions := { connectionId := 1, scopeConfigId := 0, scopeConfig := none }

def connC1 : ZentaoConnection :=
  { endpoint := "http://demo.zentao:80/api.php/v1/", dbUrl := "mysql://root@mirror/zentao",
    dbLoggingLevel := "", dbIdleConns := 0, dbMaxConns := 0 }

def extC1 : Externals :=
  { decodeResult := .ok opC1
    connResult := .ok connC1
    apiClientResult := .ok { endpoint := "http://demo.zentao:80/api.php/v1/" }
    scopeConfigResult := .error { isNotFound := true }
    cfgDbLoggingLevel := "info"
    cfgDbIdleConns := 5
    cfgDbMaxConns := 10
    newGormDb := fun st => .ok { dbUrl := st.dbUrl }
    urlParse := fun s =>
      if s = "http://demo.zentao:80/api.php/v1/"
      then .ok { scheme := "http", host := "demo.zentao:80", path := "/api.php/v1/" }
      else .error () }

def opC3 : ZentaoOptions := { connectionId := 2, scopeConfigId := 42, scopeConfig := none }

def connC3 : ZentaoConnection :=
  { endpoint := "http://zentao.local/", dbUrl := "", dbLoggingLevel := "",
    dbIdleConns := 0, dbMaxConns := 0 }

def extC3 : Externals :=
  { decodeResult := .ok opC3
    connResult := .ok connC3
    apiClientResult := .error ()
    scopeConfigResult := .error { isNotFound := false }
    cfgDbLoggingLevel := ""
    cfgDbIdleConns := 0
    cfgDbMaxConns := 0
    newGormDb := fun _ => .error ()
    urlParse := fun s =>
      if s = "http://zentao.local/"
      then .ok { scheme := "http", host := "zentao.local", path := "/" }
      else .error () }

def extC3b : Externals := { extC3 with scopeConfigResult := .error { isNotFound := true } }

def opC4 : ZentaoOptions := { connectionId := 3, scopeConfigId := 0, scopeConfig := none }

def connC4 : ZentaoConnection :=
  { endpoint := "", dbUrl := "", dbLoggingLevel := "", dbIdleConns := 0, dbMaxConns := 0 }

def extC4 : Externals :=
  { decodeResult := .ok opC4
    connResult := .ok connC4
    apiClientResult := .ok { endpoint := "" }
    scopeConfigResult := .error { isNotFound := true }
    cfgDbLoggingLevel := ""
    cfgDbIdleConns := 0
    cfgDbMaxConns := 0
    newGormDb := fun _ => .error ()
    urlParse := fun _ => .error () }

def dataC5 : ZentaoTaskData :=
  mkTaskData { connectionId := 4, scopeConfigId := 0, scopeConfig := none }
    (some { endpoint := "http://h5/api.php/v1/" }) (some { dbUrl := "mysql://mirror5" })
    "http://h5"

def connC5 : ZentaoConnection :=
  { endpoint := "http://h5/", dbUrl := "", dbLoggingLevel := "",
    dbIdleConns := 0, dbMaxConns := 0 }

def extC5 : Externals :=
  { decodeResult := .ok { connectionId := 4, scopeConfigId := 0, scopeConfig := none }
    connResult := .ok connC5
    apiClientResult := .error ()
    scopeConfigResult := .error { isNotFound := true }
    cfgDbLoggingLevel := ""
    cfgDbIdleConns := 0
    cfgDbMaxConns := 0
    newGormDb := fun _ => .error ()
    urlParse := fun s =>
      if s = "http://h5/" then .ok { scheme := "http", host := "h5", path := "/" }
      else .error () }

def connC6 : ZentaoConnection :=
  { endpoint := "http://z6.example/api.php/v1/", dbUrl := "mysql://m6",
    dbLoggingLevel := "", dbIdleConns := 0, dbMaxConns := 0 }

def extC6 : Externals :=
  { decodeResult := .ok { connectionId := 6, scopeConfigId := 0, scopeConfig := none }
    connResult := .ok connC6
    apiClientResult := .error ()
    scopeConfigResult := .error { isNotFound := false }
    cfgDbLoggingLevel := ""
    cfgDbIdleConns := 0
    cfgDbMaxConns := 0
    newGormDb := fun _ => .error ()
    urlParse := fun s =>
      if s = "http://z6.example/api.php/v1/"
      then .ok { scheme := "http", host := "z6.example", path := "/api.php/v1/" }
      else .error () }

def connC7 : ZentaoConnection :=
  { endpoint := "http://h7/", dbUrl := "mysql://m7", dbLoggingLevel := "",
    dbIdleConns := 0, dbMaxConns := 7 }

def extC7 : Externals :=
  { decodeResult := .ok { connectionId := 7, scopeConfigId := 0, scopeConfig := none }
    connResult := .ok connC7
    apiClientResult := .ok { endpoint := "http://h7/" }
    scopeConfigResult := .error { isNotFound := true }
    cfgDbLoggingLevel := "warn"
    cfgDbIdleConns := 4
    cfgDbMaxConns := 9
    newGormDb := fun st => .ok { dbUrl := st.dbUrl }
    urlParse := fun s =>
      if s = "http://h7/" then .ok { scheme := "http", host := "h7", path := "/" }
      else .error () }

def opC9 : ZentaoOptions := { connectionId := 9, scopeConfigId := 0, scopeConfig := none }

def connC9 : ZentaoConnection :=
  { endpoint := "http://h9/api.php/v1/", dbUrl := "mysql://m9", dbLoggingLevel := "lvl9",
    dbIdleConns := 2, dbMaxConns := 3 }

def extC9 : Externals :=
  { decodeResult := .ok opC9
    connResult := .ok connC9
    apiClientResult := .ok { endpoint := "http://h9/api.php/v1/" }
    scopeConfigResult := .error { isNotFound := true }
    cfgDbLoggingLevel := ""
    cfgDbIdleConns := 0
    cfgDbMaxConns := 0
    newGormDb := fun st => .ok { dbUrl := st.dbUrl }
    urlParse := fun _ => .error () }

theorem cutAux_start (sep s : List Char) (hb : sep <+: s) :
    cutAux sep s = some ([], s.drop sep.length) := by
  cases s with
  | nil =>
    have hsep : sep = [] := List.prefix_nil.mp hb
    subst hsep
    simp [cutAux]
  | cons c rest => simp [cutAux, hb]

theorem cutAux_sound (sep : List Char) :
    ∀ s pre post, cutAux sep s = some (pre, post) → s = pre ++ sep ++ post := by
  intro s
  induction s with
  | nil =>
    intro pre post h
    simp only [cutAux] at h
    by_cases hb : sep <+: ([] : List Char)
    · have hsep : sep = [] := List.prefix_nil.mp hb
      rw [if_pos hb] at h
      injection h with h1
      injection h1 with h2 h3
      rw [← h2, ← h3]
      simp [hsep]
    · rw [if_neg hb] at h
      exact Option.noConfusion h
  | cons c rest ih =>
    intro pre post h
    simp only [cutAux] at h
    by_cases hb : sep <+: (c :: rest)
    · rw [if_pos hb] at h
      injection h with h1
      injection h1 with h2 h3
      obtain ⟨t, ht⟩ := hb
      have hpost : post = t := by rw [← h3, ← ht, List.drop_left]
      rw [← h2, ← ht, hpost]
      simp
    · rw [if_neg hb] at h
      cases hr : cutAux sep rest with
      | none => rw [hr] at h; exact Option.noConfusion h
      | some p =>
        rw [hr, Option.map_some'] at h
        injection h with h1
        injection h1 with h2 h3
        have hrest := ih p.1 p.2 (by rw [hr])
        rw [← h2, ← h3, hrest]
        simp

theorem cutAux_isSome (sep : List Char) :
    ∀ pre post s, s = pre ++ sep ++ post → (cutAux sep s).isSome = true := by
  intro pre
  induction pre with
  | nil =>
    intro post s h
    have hb : sep <+: s := ⟨post, by rw [h]; simp⟩
    rw [cutAux_start sep s hb]
    rfl
  | cons a pre' ih =>
    intro post s h
    subst h
    have hx : (a :: pre') ++ sep ++ post = a :: (pre' ++ sep ++ post) := by simp
    rw [hx]
    by_cases hb : sep <+: a :: (pre' ++ sep ++ post)
    · rw [cutAux_start sep _ hb]
      rfl
    · simp only [cutAux]
      rw [if_neg hb]
      have hsome := ih post (pre' ++ sep ++ post) rfl
      cases hr : cutAux sep (pre' ++ sep ++ post) with
      | none => rw [hr] at hsome; exact absurd hsome (by simp)
      | some p => rfl

theorem cutAux_min (sep : List Char) :
    ∀ s pre post, cutAux sep s = some (pre, post) →
      ∀ pre2 post2, s = pre2 ++ sep ++ post2 → pre.length ≤ pre2.length := by
  intro s
  induction s with
  | nil =>
    intro pre post h pre2 post2 _
    simp only [cutAux] at h
    by_cases hb : sep <+: ([] : List Char)
    · rw [if_pos hb] at h
      injection h with h1
      injection h1 with h2 _
      rw [← h2]
      simp
    · rw [if_neg hb] at h
      exact Option.noConfusion h
  | cons c rest ih =>
    intro pre post h pre2 post2 h2
    simp only [cutAux] at h
    by_cases hb : sep <+: (c :: rest)
    · rw [if_pos hb] at h
      injection h with h1
      injection h1 with h3 _
      rw [← h3]
      simp
    · rw [if_neg hb] at h
      cases hr : cutAux sep rest with
      | none => rw [hr] at h; exact Option.noConfusion h
      | some p =>
        rw [hr, Option.map_some'] at h
        injection h with h1
        injection h1 with h3 h4
        cases pre2 with
        | nil =>
          exact absurd ⟨post2, by rw [h2]; simp⟩ hb
        | cons d pre2' =>
          have h2x := h2
          simp only [List.cons_append] at h2x
          injection h2x with hhead htail
          have h2' : rest = pre2' ++ sep ++ post2 := by simpa using htail
          have hle := ih p.1 p.2 (by rw [hr]) pre2' post2 h2'
          rw [← h3]
          simpa using Nat.succ_le_succ hle

/-- C2: the claim (and the Go function's own doc comment) promise that
`"http://54.158.1.10:30001/api.php/v1/"` resolves to
`"http://54.158.1.10:30001/"`; the code actually drops the trailing slash,
because `strings.Cut` discards everything from the first occurrence of
`"/api.php/v1"` onward, including the `"/"` that follows it. This theorem
evaluates the embedded code at that input. -/
theorem C2_trailing_slash_dropped :
    getZentaoHomePage
      (fun s => if s = "http://54.158.1.10:30001/api.php/v1/"
        then .ok { scheme := "http", host := "54.158.1.10:30001", path := "/api.php/v1/" }
        else .error ())
      "http://54.158.1.10:30001/api.php/v1/"
      = .ok "http://54.158.1.10:30001" := by decide

/-- C8 counterexample: the claimed registry ordering is false as stated — its
second half requires the Account Collect/Extract units to precede every unit
of every other entity family, but the Convert-Project unit (family `project`)
is the very first element, before `CollectAccountMeta`. -/
theorem C8_counterexample : ¬ claimedStageOrder := by
  unfold claimedStageOrder
  decide

/-- C8 amended: Convert-Project is the first element of `SubTaskMetas` (and
occurs nowhere else), and the Account Collect/Extract units precede every
other entity family's units except that leading Convert-Project unit. -/
theorem C8_amended_order :
    SubTaskMetas.head? = some ⟨.convert, .project⟩ ∧
    (∀ j : Fin SubTaskMetas.length, 0 < (j : Nat) →
       SubTaskMetas.get j ≠ ⟨.convert, .project⟩) ∧
    ∀ i j : Fin SubTaskMetas.length,
      (SubTaskMetas.get i).family = .account →
      ((SubTaskMetas.get i).kind = .collect ∨ (SubTaskMetas.get i).kind = .extract) →
      (SubTaskMetas.get j).family ≠ .account →
      0 < (j : Nat) →
      (i : Nat) < (j : Nat) := by decide

/-- C8 amended witness: the Account Collect unit (index 1) precedes the
Department Collect unit (index 4). -/
theorem C8_amended_order_witness :
    (SubTaskMetas.get ⟨1, by decide⟩).family = .account
  ∧ (((⟨1, by decide⟩ : Fin SubTaskMetas.length) : Nat)
      < ((⟨4, by decide⟩ : Fin SubTaskMetas.length) : Nat)) := by
  refine ⟨by decide, ?_⟩
  exact C8_amended_order.2.2 ⟨1, by decide⟩ ⟨4, by decide⟩
    (by decide) (by decide) (by decide) (by decide)

/-- C10: for every non-empty endpoint that parses to a URL, when the path does
not contain the substring `"/api.php/v1"`, `getZentaoHomePage` succeeds and
returns scheme://host followed by the entire original path unchanged; when it
does contain it, everything from the first occurrence onward (including any
trailing segment) is discarded. -/
theorem C10_homepage_cut (urlP : String → Except Unit URL) (endpoint : String)
    (u : URL) (hne : endpoint ≠ "") (hp : urlP endpoint = .ok u) :
    (¬ ("/api.php/v1".toList <:+: u.path.toList) →
        getZentaoHomePage urlP endpoint = .ok (u.scheme ++ "://" ++ u.host ++ u.path))
  ∧ (("/api.php/v1".toList <:+: u.path.toList) →
      ∃ pre post, u.path.toList = pre ++ "/api.php/v1".toList ++ post
        ∧ (∀ pre2 post2, u.path.toList = pre2 ++ "/api.php/v1".toList ++ post2 →
            pre.length ≤ pre2.length)
        ∧ getZentaoHomePage urlP endpoint
            = .ok (u.scheme ++ "://" ++ u.host ++ String.mk pre)) := by
  have hunfold : getZentaoHomePage urlP endpoint
      = .ok (u.scheme ++ "://" ++ u.host ++ (stringsCut u.path "/api.php/v1").1) := by
    unfold getZentaoHomePage
    rw [if_neg hne, hp]
  constructor
  · intro hni
    cases hc : cutAux "/api.php/v1".toList u.path.toList with
    | some p =>
      exact absurd
        ⟨p.1, p.2, (cutAux_sound "/api.php/v1".toList u.path.toList p.1 p.2
          (by rw [hc])).symm⟩ hni
    | none =>
      rw [hunfold]
      have hcut : stringsCut u.path "/api.php/v1" = (u.path, "", false) := by
        unfold stringsCut
        rw [hc]
      rw [hcut]
  · intro hi
    obtain ⟨s0, t0, hst⟩ := hi
    have hsome := cutAux_isSome "/api.php/v1".toList s0 t0 u.path.toList hst.symm
    cases hc : cutAux "/api.php/v1".toList u.path.toList with
    | none => rw [hc] at hsome; exact absurd hsome (by simp)
    | some p =>
      refine ⟨p.1, p.2,
        cutAux_sound "/api.php/v1".toList u.path.toList p.1 p.2 (by rw [hc]),
        ?_, ?_⟩
      · intro pre2 post2 h2
        exact cutAux_min "/api.php/v1".toList u.path.toList p.1 p.2
          (by rw [hc]) pre2 post2 h2
      · rw [hunfold]
        have hcut : stringsCut u.path "/api.php/v1"
            = (String.mk p.1, String.mk p.2, true) := by
          unfold stringsCut
          rw [hc]
        rw [hcut]

/-- C10 witness: a path without the versioned suffix is kept whole, and a
path with a trailing segment after the suffix loses everything from the
suffix's first occurrence onward. -/
theorem C10_homepage_cut_witness :
    getZentaoHomePage
        (fun s => if s = "http://z.example/zentao/"
          then .ok { scheme := "http", host := "z.example", path := "/zentao/" }
          else .error ())
        "http://z.example/zentao/" = .ok "http://z.example/zentao/"
  ∧ ∃ pre post, ("/api.php/v1/extra" : String).toList = pre ++ "/api.php/v1".toList ++ post
      ∧ (∀ pre2 post2,
          ("/api.php/v1/extra" : String).toList = pre2 ++ "/api.php/v1".toList ++ post2 →
          pre.length ≤ pre2.length)
      ∧ getZentaoHomePage
          (fun s => if s = "http://h.example/api.php/v1/extra"
            then .ok { scheme := "http", host := "h.example", path := "/api.php/v1/extra" }
            else .error ())
          "http://h.example/api.php/v1/extra"
          = .ok ("http" ++ "://" ++ "h.example" ++ String.mk pre) := by
  constructor
  · exact (C10_homepage_cut _ "http://z.example/zentao/"
      { scheme := "http", host := "z.example", path := "/zentao/" }
      (by decide) (by decide)).1 (by decide)
  · exact (C10_homepage_cut _ "http://h.example/api.php/v1/extra"
      { scheme := "http", host := "h.example", path := "/api.php/v1/extra" }
      (by decide) (by decide)).2 (by decide)

theorem acquireApiClient_skip (x : Except Unit ApiAsyncClient) :
    acquireApiClient true x = .ok none := rfl

theorem acquireApiClient_ok (c : ApiAsyncClient) :
    acquireApiClient false (.ok c) = .ok (some c) := rfl

theorem openMirrorDb_skip (conn : ZentaoConnection) (cfgLevel : String)
    (cfgIdle cfgMax : Int) (g : ViperSettings → Except Unit RemoteDbHandle) :
    openMirrorDb true conn cfgLevel cfgIdle cfgMax g = .ok none := by
  simp [openMirrorDb]

theorem openMirrorDb_noUrl (b : Bool) (conn : ZentaoConnection) (cfgLevel : String)
    (cfgIdle cfgMax : Int) (g : ViperSettings → Except Unit RemoteDbHandle)
    (h : conn.dbUrl = "") :
    openMirrorDb b conn cfgLevel cfgIdle cfgMax g = .ok none := by
  simp [openMirrorDb, h]

theorem openMirrorDb_open (conn : ZentaoConnection) (cfgLevel : String)
    (cfgIdle cfgMax : Int) (g : ViperSettings → Except Unit RemoteDbHandle)
    (db : RemoteDbHandle) (h : conn.dbUrl ≠ "")
    (hg : g (mirrorDbSettings conn cfgLevel cfgIdle cfgMax) = .ok db) :
    openMirrorDb false conn cfgLevel cfgIdle cfgMax g = .ok (some db) := by
  simp [openMirrorDb, h, hg]

theorem PrepareTaskData_run (ext : Externals) (sp : SyncPolicy) (op op2 : ZentaoOptions)
    (conn : ZentaoConnection) (apiClient : Option ApiAsyncClient)
    (remoteDb : Option RemoteDbHandle)
    (hd : ext.decodeResult = .ok op)
    (hc : ext.connResult = .ok conn)
    (ha : acquireApiClient sp.skipCollectors ext.apiClientResult = .ok apiClient)
    (hs : loadScopeConfig ext.scopeConfigResult op = .ok op2)
    (hm : openMirrorDb sp.skipCollectors conn ext.cfgDbLoggingLevel ext.cfgDbIdleConns
      ext.cfgDbMaxConns ext.newGormDb = .ok remoteDb) :
    PrepareTaskData ext sp =
      (match getZentaoHomePage ext.urlParse
          (match apiClient with | some c => c.GetEndpoint | none => conn.endpoint) with
       | .error e => (some (mkTaskData op2 apiClient remoteDb ""), some e)
       | .ok homepage => (some (mkTaskData op2 apiClient remoteDb homepage), none)) := by
  simp only [PrepareTaskData, mkTaskData, hd, hc, ha, hs, hm]
  cases apiClient <;> rfl

theorem PrepareTaskData_run_error (ext : Externals) (sp : SyncPolicy)
    (op op2 : ZentaoOptions) (conn : ZentaoConnection)
    (apiClient : Option ApiAsyncClient) (remoteDb : Option RemoteDbHandle)
    (endpoint : String) (e : Err)
    (hd : ext.decodeResult = .ok op)
    (hc : ext.connResult = .ok conn)
    (ha : acquireApiClient sp.skipCollectors ext.apiClientResult = .ok apiClient)
    (hs : loadScopeConfig ext.scopeConfigResult op = .ok op2)
    (hm : openMirrorDb sp.skipCollectors conn ext.cfgDbLoggingLevel ext.cfgDbIdleConns
      ext.cfgDbMaxConns ext.newGormDb = .ok remoteDb)
    (he : (match apiClient with | some c => c.GetEndpoint | none => conn.endpoint) = endpoint)
    (hh : getZentaoHomePage ext.urlParse endpoint = .error e) :
    PrepareTaskData ext sp = (some (mkTaskData op2 apiClient remoteDb ""), some e) := by
  rw [PrepareTaskData_run ext sp op op2 conn apiClient remoteDb hd hc ha hs hm, he, hh]

theorem PrepareTaskData_run_ok (ext : Externals) (sp : SyncPolicy)
    (op op2 : ZentaoOptions) (conn : ZentaoConnection)
    (apiClient : Option ApiAsyncClient) (remoteDb : Option RemoteDbHandle)
    (endpoint hp : String)
    (hd : ext.decodeResult = .ok op)
    (hc : ext.connResult = .ok conn)
    (ha : acquireApiClient sp.skipCollectors ext.apiClientResult = .ok apiClient)
    (hs : loadScopeConfig ext.scopeConfigResult op = .ok op2)
    (hm : openMirrorDb sp.skipCollectors conn ext.cfgDbLoggingLevel ext.cfgDbIdleConns
      ext.cfgDbMaxConns ext.newGormDb = .ok remoteDb)
    (he : (match apiClient with | some c => c.GetEndpoint | none => conn.endpoint) = endpoint)
    (hh : getZentaoHomePage ext.urlParse endpoint = .ok hp) :
    PrepareTaskData ext sp = (some (mkTaskData op2 apiClient remoteDb hp), none) := by
  rw [PrepareTaskData_run ext sp op op2 conn apiClient remoteDb hd hc ha hs hm, he, hh]

/-- C1 counterexample: with SkipCollectors=false and a non-empty mirror-db
URL, construction builds BOTH the HTTP API client and the mirror-database
pool: the two acquisition modes are not mutually exclusive, refuting the
claim that the HTTP client is not constructed in mirror-database mode. -/
theorem C1_counterexample :
    ((PrepareTaskData extC1 { skipCollectors := false }).1.map
      (fun d => (d.apiClient.isSome, d.remoteDb.isSome))) = some (true, true) := by decide

/-- C1 amended: with SkipCollectors=false the HTTP API client is always
constructed; the mirror-database pool is opened in addition (not instead)
exactly when the connection declares a non-empty mirror-db URL. -/
theorem C1_amended_both_modes (ext : Externals) (op op2 : ZentaoOptions)
    (conn : ZentaoConnection) (c : ApiAsyncClient)
    (hd : ext.decodeResult = .ok op)
    (hc : ext.connResult = .ok conn)
    (ha : ext.apiClientResult = .ok c)
    (hs : loadScopeConfig ext.scopeConfigResult op = .ok op2)
    (hg : conn.dbUrl ≠ "" → ∃ db, ext.newGormDb
      (mirrorDbSettings conn ext.cfgDbLoggingLevel ext.cfgDbIdleConns ext.cfgDbMaxConns)
        = .ok db) :
    ∃ d, (PrepareTaskData ext { skipCollectors := false }).1 = some d
      ∧ d.apiClient = some c
      ∧ (conn.dbUrl = "" → d.remoteDb = none)
      ∧ (conn.dbUrl ≠ "" → ∃ db,
          ext.newGormDb (mirrorDbSettings conn ext.cfgDbLoggingLevel ext.cfgDbIdleConns
            ext.cfgDbMaxConns) = .ok db ∧ d.remoteDb = some db) := by
  have ha' : acquireApiClient (false : Bool) ext.apiClientResult = .ok (some c) := by
    rw [ha, acquireApiClient_ok]
  by_cases hdb : conn.dbUrl = ""
  · have hm := openMirrorDb_noUrl false conn ext.cfgDbLoggingLevel ext.cfgDbIdleConns
      ext.cfgDbMaxConns ext.newGormDb hdb
    cases hh : getZentaoHomePage ext.urlParse c.GetEndpoint with
    | error e =>
      refine ⟨mkTaskData op2 (some c) none "", ?_, rfl, fun _ => rfl,
        fun hne => absurd hdb hne⟩
      rw [PrepareTaskData_run_error ext { skipCollectors := false } op op2 conn (some c) none c.GetEndpoint e
        hd hc ha' hs hm rfl hh]
    | ok hp =>
      refine ⟨mkTaskData op2 (some c) none hp, ?_, rfl, fun _ => rfl,
        fun hne => absurd hdb hne⟩
      rw [PrepareTaskData_run_ok ext { skipCollectors := false } op op2 conn (some c) none c.GetEndpoint hp
        hd hc ha' hs hm rfl hh]
  · obtain ⟨db, hgdb⟩ := hg hdb
    have hm := openMirrorDb_open conn ext.cfgDbLoggingLevel ext.cfgDbIdleConns
      ext.cfgDbMaxConns ext.newGormDb db hdb hgdb
    cases hh : getZentaoHomePage ext.urlParse c.GetEndpoint with
    | error e =>
      refine ⟨mkTaskData op2 (some c) (some db) "", ?_, rfl, fun h => absurd h hdb,
        fun _ => ⟨db, hgdb, rfl⟩⟩
      rw [PrepareTaskData_run_error ext { skipCollectors := false } op op2 conn (some c) (some db) c.GetEndpoint e
        hd hc ha' hs hm rfl hh]
    | ok hp =>
      refine ⟨mkTaskData op2 (some c) (some db) hp, ?_, rfl, fun h => absurd h hdb,
        fun _ => ⟨db, hgdb, rfl⟩⟩
      rw [PrepareTaskData_run_ok ext { skipCollectors := false } op op2 conn (some c) (some db) c.GetEndpoint hp
        hd hc ha' hs hm rfl hh]

/-- C1 amended witness: the amended statement at a concrete run with a
mirror-db URL set. -/
theorem C1_amended_both_modes_witness :
    ∃ d, (PrepareTaskData extC1 { skipCollectors := false }).1 = some d
      ∧ d.apiClient = some { endpoint := "http://demo.zentao:80/api.php/v1/" }
      ∧ (connC1.dbUrl = "" → d.remoteDb = none)
      ∧ (connC1.dbUrl ≠ "" → ∃ db,
          extC1.newGormDb (mirrorDbSettings connC1 extC1.cfgDbLoggingLevel
            extC1.cfgDbIdleConns extC1.cfgDbMaxConns) = .ok db ∧ d.remoteDb = some db) :=
  C1_amended_both_modes extC1 opC1 opC1 connC1
    { endpoint := "http://demo.zentao:80/api.php/v1/" }
    rfl rfl rfl (by decide)
    (fun _ => ⟨{ dbUrl := "mysql://root@mirror/zentao" }, by decide⟩)

/-- C3: with a scope-config id and no embedded value, a load failure that is
NOT "not found" (e.g. a connection refused) is silently swallowed:
construction continues and succeeds with the scope config still unset,
contradicting the claim that any other storage failure is fatal. The second
conjunct shows the "not found" half does abort with BadInput as claimed. -/
theorem C3_non_notfound_swallowed :
    PrepareTaskData extC3 { skipCollectors := true }
      = (some (mkTaskData opC3 none none "http://zentao.local/"), none)
  ∧ PrepareTaskData extC3b { skipCollectors := true }
      = (none, some .scopeConfigBadInput) := by decide

/-- C4 counterexample: with SkipCollectors=false and an empty endpoint,
home-page resolution does fail with the empty-endpoint configuration error,
but an acquirer (the HTTP API client, built earlier) HAS been constructed
and is returned with the error — refuting "no Data Acquirer is
constructed". -/
theorem C4_counterexample :
    (PrepareTaskData extC4 { skipCollectors := false }).2 = some .emptyEndpoint
  ∧ ((PrepareTaskData extC4 { skipCollectors := false }).1.map
      (fun d => d.apiClient.isSome)) = some true := by decide

/-- C4 amended: for an empty endpoint, home-page resolution fails with the
empty-endpoint configuration error and the error is returned; no acquirer
exists only under SkipCollectors=true — with SkipCollectors=false the HTTP
client constructed before home-page resolution is returned with the error. -/
theorem C4_amended_empty_endpoint (ext : Externals) (op op2 : ZentaoOptions)
    (conn : ZentaoConnection)
    (hd : ext.decodeResult = .ok op)
    (hc : ext.connResult = .ok conn)
    (hs : loadScopeConfig ext.scopeConfigResult op = .ok op2)
    (hce : conn.endpoint = "") :
    PrepareTaskData ext { skipCollectors := true }
      = (some (mkTaskData op2 none none ""), some .emptyEndpoint)
  ∧ ∀ c : ApiAsyncClient, ext.apiClientResult = .ok c → c.endpoint = "" →
      conn.dbUrl = "" →
      PrepareTaskData ext { skipCollectors := false }
        = (some (mkTaskData op2 (some c) none ""), some .emptyEndpoint) := by
  have hhe : ∀ pr : String → Except Unit URL,
      getZentaoHomePage pr "" = .error .emptyEndpoint := fun pr => rfl
  constructor
  · exact PrepareTaskData_run_error ext { skipCollectors := true } op op2 conn none none
      conn.endpoint .emptyEndpoint hd hc rfl hs
      (openMirrorDb_skip conn ext.cfgDbLoggingLevel ext.cfgDbIdleConns
        ext.cfgDbMaxConns ext.newGormDb)
      rfl (by rw [hce]; exact hhe ext.urlParse)
  · intro c hac hcend hdb
    have ha' : acquireApiClient (false : Bool) ext.apiClientResult = .ok (some c) := by
      rw [hac, acquireApiClient_ok]
    exact PrepareTaskData_run_error ext { skipCollectors := false } op op2 conn (some c) none
      "" .emptyEndpoint hd hc ha' hs
      (openMirrorDb_noUrl false conn ext.cfgDbLoggingLevel ext.cfgDbIdleConns
        ext.cfgDbMaxConns ext.newGormDb hdb)
      hcend (hhe ext.urlParse)

/-- C4 amended witness. -/
theorem C4_amended_empty_endpoint_witness :
    PrepareTaskData extC4 { skipCollectors := true }
      = (some (mkTaskData opC4 none none ""), some .emptyEndpoint)
  ∧ PrepareTaskData extC4 { skipCollectors := false }
      = (some (mkTaskData opC4 (some { endpoint := "" }) none ""), some .emptyEndpoint) := by
  have h := C4_amended_empty_endpoint extC4 opC4 opC4 connC4 rfl rfl (by decide) rfl
  exact ⟨h.1, h.2 { endpoint := "" } rfl rfl rfl⟩

/-- C5 counterexample: on a task data whose mirror-database acquirer was
opened, Close succeeds but releases only the API client; the mirror-db
handle is not released, refuting "releases the Data Acquirer ... in
mirror-database mode". -/
theorem C5_counterexample :
    dataC5.remoteDb.isSome = true
  ∧ Close (some dataC5)
      = .ok { apiClientReleased := true, remoteDbReleased := false } := by decide

/-- C5 amended: Close releases the HTTP API client exactly when one is
present (and never the mirror-database handle); on data built under
skip-collectors there is no acquirer at all, so Close is a safe no-op. -/
theorem C5_amended_release (ext : Externals) (d : ZentaoTaskData)
    (h : (PrepareTaskData ext { skipCollectors := true }).1 = some d) :
    Close (some d)
      = .ok { apiClientReleased := d.apiClient.isSome, remoteDbReleased := false }
  ∧ d.apiClient = none ∧ d.remoteDb = none
  ∧ Close (some d) = .ok { apiClientReleased := false, remoteDbReleased := false } := by
  have hnone : d.apiClient = none ∧ d.remoteDb = none := by
    cases hd : ext.decodeResult with
    | error u => simp [PrepareTaskData, hd] at h
    | ok op =>
      cases hc : ext.connResult with
      | error u => simp [PrepareTaskData, hd, hc] at h
      | ok conn =>
        cases hs : loadScopeConfig ext.scopeConfigResult op with
        | error e => simp [PrepareTaskData, hd, hc, hs, acquireApiClient] at h
        | ok op2 =>
          have hrun := PrepareTaskData_run ext { skipCollectors := true } op op2 conn
            none none hd hc rfl hs
            (openMirrorDb_skip conn ext.cfgDbLoggingLevel ext.cfgDbIdleConns
              ext.cfgDbMaxConns ext.newGormDb)
          simp only [hrun] at h
          cases hh : getZentaoHomePage ext.urlParse conn.endpoint with
          | error e =>
            simp only [hh] at h
            simp at h
            rw [← h]
            exact ⟨rfl, rfl⟩
          | ok hp =>
            simp only [hh] at h
            simp at h
            rw [← h]
            exact ⟨rfl, rfl⟩
  refine ⟨rfl, hnone.1, hnone.2, ?_⟩
  simp [Close, hnone.1]

/-- C5 amended witness. -/
theorem C5_amended_release_witness :
    Close (some (mkTaskData { connectionId := 4, scopeConfigId := 0, scopeConfig := none }
      none none "http://h5/"))
      = .ok { apiClientReleased := false, remoteDbReleased := false } :=
  (C5_amended_release extC5
    (mkTaskData { connectionId := 4, scopeConfigId := 0, scopeConfig := none }
      none none "http://h5/")
    (by decide)).2.2.2

/-- C6: with SkipCollectors=true the constructed task data has no API client
and no mirror-db handle while options, empty caches, the account cache and
the resolved home page are all present; moreover the result does not depend
on the API-client constructor or the gorm opener at all (no connection is
attempted). -/
theorem C6_skip_collectors (ext : Externals) (op op2 : ZentaoOptions)
    (conn : ZentaoConnection) (hp : String)
    (hd : ext.decodeResult = .ok op)
    (hc : ext.connResult = .ok conn)
    (hs : loadScopeConfig ext.scopeConfigResult op = .ok op2)
    (hh : getZentaoHomePage ext.urlParse conn.endpoint = .ok hp) :
    PrepareTaskData ext { skipCollectors := true }
      = (some (mkTaskData op2 none none hp), none)
  ∧ ∀ (acr : Except Unit ApiAsyncClient) (g : ViperSettings → Except Unit RemoteDbHandle),
      PrepareTaskData { ext with apiClientResult := acr, newGormDb := g }
        { skipCollectors := true }
      = PrepareTaskData ext { skipCollectors := true } := by
  constructor
  · exact PrepareTaskData_run_ok ext { skipCollectors := true } op op2 conn none none
      conn.endpoint hp hd hc rfl hs
      (openMirrorDb_skip conn ext.cfgDbLoggingLevel ext.cfgDbIdleConns
        ext.cfgDbMaxConns ext.newGormDb)
      rfl hh
  · intro acr g
    rw [PrepareTaskData_run_ok { ext with apiClientResult := acr, newGormDb := g }
        { skipCollectors := true } op op2 conn none none conn.endpoint hp hd hc rfl hs
        (openMirrorDb_skip conn ext.cfgDbLoggingLevel ext.cfgDbIdleConns
          ext.cfgDbMaxConns g)
        rfl hh,
      PrepareTaskData_run_ok ext { skipCollectors := true } op op2 conn none none
        conn.endpoint hp hd hc rfl hs
        (openMirrorDb_skip conn ext.cfgDbLoggingLevel ext.cfgDbIdleConns
          ext.cfgDbMaxConns ext.newGormDb)
        rfl hh]

/-- C6 witness. -/
theorem C6_skip_collectors_witness :
    PrepareTaskData extC6 { skipCollectors := true }
      = (some (mkTaskData { connectionId := 6, scopeConfigId := 0, scopeConfig := none }
          none none "http://z6.example"), none)
  ∧ PrepareTaskData
        { extC6 with
          apiClientResult := .ok { endpoint := "http://x/" }
          newGormDb := fun st => .ok { dbUrl := st.dbUrl } }
        { skipCollectors := true }
      = PrepareTaskData extC6 { skipCollectors := true } := by
  have h := C6_skip_collectors extC6
    { connectionId := 6, scopeConfigId := 0, scopeConfig := none }
    { connectionId := 6, scopeConfigId := 0, scopeConfig := none }
    connC6 "http://z6.example" rfl rfl (by decide) (by decide)
  exact ⟨h.1, h.2 (.ok { endpoint := "http://x/" }) (fun st => .ok { dbUrl := st.dbUrl })⟩

/-- C7: each unset mirror-database setting on the connection (empty logging
level, zero idle-conns, zero max-conns) is replaced by the process-wide
default, a set value is never overridden, and the pooled-connection opener is
consulted exactly at these defaulted settings: two openers agreeing there
yield identical PrepareTaskData results. -/
theorem C7_mirror_db_defaults (conn : ZentaoConnection) (cfgLevel : String)
    (cfgIdle cfgMax : Int) :
    ((mirrorDbSettings conn cfgLevel cfgIdle cfgMax).dbUrl = conn.dbUrl)
  ∧ (conn.dbLoggingLevel = "" →
      (mirrorDbSettings conn cfgLevel cfgIdle cfgMax).dbLoggingLevel = cfgLevel)
  ∧ (conn.dbLoggingLevel ≠ "" →
      (mirrorDbSettings conn cfgLevel cfgIdle cfgMax).dbLoggingLevel = conn.dbLoggingLevel)
  ∧ (conn.dbIdleConns = 0 →
      (mirrorDbSettings conn cfgLevel cfgIdle cfgMax).dbIdleConns = cfgIdle)
  ∧ (conn.dbIdleConns ≠ 0 →
      (mirrorDbSettings conn cfgLevel cfgIdle cfgMax).dbIdleConns = conn.dbIdleConns)
  ∧ (conn.dbMaxConns = 0 →
      (mirrorDbSettings conn cfgLevel cfgIdle cfgMax).dbMaxConns = cfgMax)
  ∧ (conn.dbMaxConns ≠ 0 →
      (mirrorDbSettings conn cfgLevel cfgIdle cfgMax).dbMaxConns = conn.dbMaxConns)
  ∧ ∀ (ext : Externals) (sp : SyncPolicy)
      (g₁ g₂ : ViperSettings → Except Unit RemoteDbHandle),
      ext.cfgDbLoggingLevel = cfgLevel → ext.cfgDbIdleConns = cfgIdle →
      ext.cfgDbMaxConns = cfgMax → ext.connResult = .ok conn →
      g₁ (mirrorDbSettings conn cfgLevel cfgIdle cfgMax)
        = g₂ (mirrorDbSettings conn cfgLevel cfgIdle cfgMax) →
      PrepareTaskData { ext with newGormDb := g₁ } sp
        = PrepareTaskData { ext with newGormDb := g₂ } sp := by
  refine ⟨rfl, ?_, ?_, ?_, ?_, ?_, ?_, ?_⟩
  · intro h; simp [mirrorDbSettings, h]
  · intro h; simp [mirrorDbSettings, h]
  · intro h; simp [mirrorDbSettings, h]
  · intro h; simp [mirrorDbSettings, h]
  · intro h; simp [mirrorDbSettings, h]
  · intro h; simp [mirrorDbSettings, h]
  · intro ext sp g₁ g₂ hl hi hm hcr hg
    have ho : openMirrorDb sp.skipCollectors conn ext.cfgDbLoggingLevel
        ext.cfgDbIdleConns ext.cfgDbMaxConns g₁
        = openMirrorDb sp.skipCollectors conn ext.cfgDbLoggingLevel
          ext.cfgDbIdleConns ext.cfgDbMaxConns g₂ := by
      unfold openMirrorDb
      rw [hl, hi, hm, hg]
    simp only [PrepareTaskData, hcr, ho]

/-- C7 witness: unset logging level and idle-conns take the defaults, the set
max-conns value is preserved. -/
theorem C7_mirror_db_defaults_witness :
    (mirrorDbSettings connC7 "warn" 4 9).dbLoggingLevel = "warn"
  ∧ (mirrorDbSettings connC7 "warn" 4 9).dbIdleConns = 4
  ∧ (mirrorDbSettings connC7 "warn" 4 9).dbMaxConns = 7
  ∧ PrepareTaskData { extC7 with newGormDb := fun st => .ok { dbUrl := st.dbUrl } }
        { skipCollectors := false }
      = PrepareTaskData { extC7 with newGormDb := fun st => .ok { dbUrl := st.dbUrl } }
        { skipCollectors := false } := by
  have h := C7_mirror_db_defaults connC7 "warn" 4 9
  exact ⟨h.2.1 rfl, h.2.2.2.1 rfl, h.2.2.2.2.2.2.1 (by decide),
    h.2.2.2.2.2.2.2 extC7 { skipCollectors := false } (fun st => .ok { dbUrl := st.dbUrl })
      (fun st => .ok { dbUrl := st.dbUrl }) rfl rfl rfl rfl rfl⟩

/-- C9: when home-page resolution fails, PrepareTaskData returns the
partially constructed task data — API client, mirror-db handle and allocated
caches included — together with the error, rather than returning no data. -/
theorem C9_partial_data_on_failure (ext : Externals) (op op2 : ZentaoOptions)
    (conn : ZentaoConnection) (c : ApiAsyncClient) (db : RemoteDbHandle) (e : Err)
    (hd : ext.decodeResult = .ok op)
    (hc : ext.connResult = .ok conn)
    (ha : ext.apiClientResult = .ok c)
    (hs : loadScopeConfig ext.scopeConfigResult op = .ok op2)
    (hdb : conn.dbUrl ≠ "")
    (hg : ext.newGormDb (mirrorDbSettings conn ext.cfgDbLoggingLevel ext.cfgDbIdleConns
      ext.cfgDbMaxConns) = .ok db)
    (hh : getZentaoHomePage ext.urlParse c.GetEndpoint = .error e) :
    PrepareTaskData ext { skipCollectors := false }
      = (some (mkTaskData op2 (some c) (some db) ""), some e) := by
  have ha' : acquireApiClient (false : Bool) ext.apiClientResult = .ok (some c) := by
    rw [ha, acquireApiClient_ok]
  exact PrepareTaskData_run_error ext { skipCollectors := false } op op2 conn (some c) (some db) c.GetEndpoint e
    hd hc ha' hs
    (openMirrorDb_open conn ext.cfgDbLoggingLevel ext.cfgDbIdleConns ext.cfgDbMaxConns
      ext.newGormDb db hdb hg)
    rfl hh

/-- C9 witness: an unparseable endpoint makes home-page resolution fail; the
returned pair still carries data with both opened handles. -/
theorem C9_partial_data_on_failure_witness :
    PrepareTaskData extC9 { skipCollectors := false }
      = (some (mkTaskData opC9 (some { endpoint := "http://h9/api.php/v1/" })
          (some { dbUrl := "mysql://m9" }) ""), some .endpointParseFailed) :=
  C9_partial_data_on_failure extC9 opC9 opC9 connC9
    { endpoint := "http://h9/api.php/v1/" } { dbUrl := "mysql://m9" }
    .endpointParseFailed rfl rfl rfl (by decide) (by decide) (by decide) (by decide)

end Zentao
